import Mathlib

/-!
Verification of the Model Monitor Data Joiner component
(`assets/model_monitoring/components/src/model_monitor_data_joiner/run.py`)
and of the task-type enum membership pattern
(`assets/training/distillation/components/data_generation/src/common/constants.py`).

The joiner operates on PySpark dataframes.  A dataframe is embedded as an
ordered schema (a list of column names, duplicates allowed) together with a
list of rows, each row a list of cell values positionally aligned with the
schema.  Spark SQL equality over cells is embedded by `valueEq`; following
Spark semantics, a NULL cell compares unequal to everything, including NULL.
-/

/-- A cell value of a tabular dataset: NULL, an integer, or a string. -/
inductive Value where
  | null : Value
  | int : Int → Value
  | str : String → Value
deriving DecidableEq, Repr

/-- Spark SQL equality on cells: NULL never matches anything (including
NULL); values of distinct runtime types compare unequal. -/
def valueEq : Value → Value → Bool
  | .null, _ => false
  | _, .null => false
  | .int a, .int b => a == b
  | .str a, .str b => a == b
  | _, _ => false

/-- A PySpark dataframe: an ordered list of column names (duplicate names
are representable, as they are in Spark join results) and a list of rows,
each row holding the cell values in schema order. -/
structure DataFrame where
  cols : List String
  rows : List (List Value)
deriving DecidableEq, Repr

/-- The value of column `c` in a given row of dataframe `df`
(the embedding of the column reference `df[c]` applied to a row):
the cell at the first index of `c` in the schema.  Out-of-range access
yields NULL, which `valueEq` never matches. -/
def rowVal (df : DataFrame) (c : String) (row : List Value) : Value :=
  row.getD (df.cols.indexOf c) .null

/-- The rows of the Spark inner equi-join
`L.join(R, L[cl] == R[cr], "inner")`: every combination of a row of `L`
with a row of `R` whose key cells satisfy the equality predicate, the
combined row being the left row followed by the right row. -/
def innerJoinRows (L : DataFrame) (cl : String) (R : DataFrame) (cr : String) :
    List (List Value) :=
  L.rows.flatMap (fun lr =>
    (R.rows.filter (fun rr => valueEq (rowVal L cl lr) (rowVal R cr rr))).map
      (fun rr => lr ++ rr))

/-- The Spark inner equi-join `L.join(R, L[cl] == R[cr], "inner")`:
the schema is the concatenation of both schemas (both key columns kept),
the rows are the matched combinations. -/
def sparkInnerJoin (L : DataFrame) (cl : String) (R : DataFrame) (cr : String) :
    DataFrame :=
  ⟨L.cols ++ R.cols, innerJoinRows L cl R cr⟩

/-- Dropping the column at position `i` from a dataframe (the embedding of
`df.drop(col)` where `col` resolves to position `i` of the schema). -/
def dropColAt (df : DataFrame) (i : Nat) : DataFrame :=
  ⟨df.cols.eraseIdx i, df.rows.map (fun r => r.eraseIdx i)⟩

/-- Python exceptions observable from the joiner script:
`InvalidInputError` from `shared_utilities.momo_exceptions`, the generic
`Exception` raised by `run`, and `AttributeError` raised by the Python
runtime on a missing attribute. -/
inductive PyError where
  | invalidInput (msg : String)
  | exception (msg : String)
  | attributeError (msg : String)
deriving DecidableEq, Repr

/-- The message of the f-string
`f"The join column \x7bjoin_column\x7d is not present in \x7binput_data_name\x7d."`
(with the column name quoted). -/
def joinColMissingMsg (join_column input_data_name : String) : String :=
  "The join column \x27" ++ join_column ++ "\x27 is not present in " ++
    input_data_name ++ "."

/-- The message of the triple-quoted empty-result error in `join_data`. -/
def emptyDataMsg : String :=
  "The data joiner resulted in an empty data asset.\n                                Please check the input data to see if this is expected."

/-- `_validate_join_column_in_input_data`: raises `InvalidInputError` when
the join column is not among the column names of the input dataframe. -/
def validate_join_column_in_input_data (input_data_df : DataFrame)
    (join_column : String) (input_data_name : String) : Except PyError Unit :=
  if join_column ∈ input_data_df.cols then .ok ()
  else .error (.invalidInput (joinColMissingMsg join_column input_data_name))

/-- `join_data`: validates both join columns, performs the inner equi-join,
drops the right copy of the key column when the two names coincide
(`.drop(right_input_data_df[right_join_column])`, which resolves to the
right-hand slot of the combined schema), and raises `InvalidInputError`
when the joined row count is zero. -/
def join_data (left_input_data_df : DataFrame) (left_join_column : String)
    (right_input_data_df : DataFrame) (right_join_column : String) :
    Except PyError DataFrame :=
  match validate_join_column_in_input_data left_input_data_df
      left_join_column "left_input_data" with
  | .error e => .error e
  | .ok _ =>
    match validate_join_column_in_input_data right_input_data_df
        right_join_column "right_input_data" with
    | .error e => .error e
    | .ok _ =>
      let joined_data_df :=
        if left_join_column = right_join_column then
          dropColAt
            (sparkInnerJoin left_input_data_df left_join_column
              right_input_data_df right_join_column)
            (left_input_data_df.cols.length +
              right_input_data_df.cols.indexOf right_join_column)
        else
          sparkInnerJoin left_input_data_df left_join_column
            right_input_data_df right_join_column
      if joined_data_df.rows.length = 0 then
        .error (.invalidInput emptyDataMsg)
      else
        .ok joined_data_df

/-- The Python attribute access `joined_data_df.columns.duplicated()` in
`run`.  A PySpark `DataFrame.columns` property is a plain Python `list`,
and `list` has no attribute `duplicated` (that is a pandas `Index`
method), so the access raises `AttributeError` whenever it is reached. -/
def columns_duplicated (_cols : List String) : Except PyError (List Bool) :=
  .error (.attributeError
    "\x27list\x27 object has no attribute \x27duplicated\x27")

/-- Boolean-mask selection `xs[mask]` as pandas would perform it; this is
the intended reading of the dead code after the `AttributeError` above. -/
def maskSelect (xs : List String) (mask : List Bool) : List String :=
  (xs.zip mask).filterMap (fun p => if p.2 then some p.1 else none)

/-- `run`, after argument parsing and data loading (both external to this
core): joins the two loaded dataframes, scans for duplicate output column
names, and on success writes exactly one output dataset.  The second
component is the write log of `save_spark_df_as_mltable` calls. -/
def run (left_input_data_df : DataFrame) (left_join_column : String)
    (right_input_data_df : DataFrame) (right_join_column : String) :
    Except PyError Unit × List DataFrame :=
  match join_data left_input_data_df left_join_column
      right_input_data_df right_join_column with
  | .error e => (.error e, [])
  | .ok joined_data_df =>
    match columns_duplicated joined_data_df.cols with
    | .error e => (.error e, [])
    | .ok mask =>
      let duplicate_column_names := maskSelect joined_data_df.cols mask
      if duplicate_column_names.length > 0 then
        (.error (.exception ("Duplicate column names found: " ++
          String.intercalate ", " duplicate_column_names)), [])
      else
        (.ok (), [joined_data_df])

/-- The pair of loaded input dataframes, the state threaded through the
state-passing reading of `join_data` below. -/
structure SparkEnv where
  left_input_data_df : DataFrame
  right_input_data_df : DataFrame
deriving DecidableEq, Repr

/-- Schema inspection `df.columns ; jc in columns` as a state-passing
operation: Spark schema reads do not modify any dataframe. -/
def validateSt (get : SparkEnv → DataFrame) (join_column : String)
    (input_data_name : String) (s : SparkEnv) :
    Except PyError Unit × SparkEnv :=
  (validate_join_column_in_input_data (get s) join_column input_data_name, s)

/-- The call `left.join(right, ..., "inner")` as a state-passing operation:
Spark `join` constructs a fresh dataframe and mutates neither operand. -/
def joinSt (cl cr : String) (s : SparkEnv) : DataFrame × SparkEnv :=
  (sparkInnerJoin s.left_input_data_df cl s.right_input_data_df cr, s)

/-- The call `.drop(right[cr])` as a state-passing operation: `drop`
returns a new dataframe and mutates nothing. -/
def dropSt (df : DataFrame) (i : Nat) (s : SparkEnv) : DataFrame × SparkEnv :=
  (dropColAt df i, s)

/-- The call `.count()` as a state-passing operation: counting materializes
the result but modifies no input dataframe. -/
def countSt (df : DataFrame) (s : SparkEnv) : Nat × SparkEnv :=
  (df.rows.length, s)

/-- `join_data` with the input dataframes held in an explicit state and
every dataframe operation threaded through it, line for line the same
sequence of operations as `join_data`. -/
def join_data_state (left_join_column right_join_column : String)
    (s : SparkEnv) : Except PyError DataFrame × SparkEnv :=
  match validateSt (fun e => e.left_input_data_df) left_join_column
      "left_input_data" s with
  | (.error e, s1) => (.error e, s1)
  | (.ok _, s1) =>
    match validateSt (fun e => e.right_input_data_df) right_join_column
        "right_input_data" s1 with
    | (.error e, s2) => (.error e, s2)
    | (.ok _, s2) =>
      let (j, s3) := joinSt left_join_column right_join_column s2
      let (joined_data_df, s4) :=
        if left_join_column = right_join_column then
          dropSt j (s3.left_input_data_df.cols.length +
            s3.right_input_data_df.cols.indexOf right_join_column) s3
        else (j, s3)
      let (n, s5) := countSt joined_data_df s4
      if n = 0 then (.error (.invalidInput emptyDataMsg), s5)
      else (.ok joined_data_df, s5)

/-- `DataGenerationTaskType`: enum of data generation task types. -/
inductive DataGenerationTaskType where
  | NLI : DataGenerationTaskType
  | CONVERSATION : DataGenerationTaskType
  | NLU_QUESTION_ANSWERING : DataGenerationTaskType
  | SUMMARIZATION : DataGenerationTaskType
deriving DecidableEq, Repr

/-- The string value carried by each `DataGenerationTaskType` member. -/
def DataGenerationTaskType.value : DataGenerationTaskType → String
  | .NLI => "NLI"
  | .CONVERSATION => "CONVERSATION"
  | .NLU_QUESTION_ANSWERING => "NLU_QA"
  | .SUMMARIZATION => "SUMMARIZATION"

/-- Enum construction by value, `DataGenerationTaskType(item)`: yields the
member whose value equals `item`, or fails (`ValueError`, embedded as
`none`) when no member carries that value. -/
def dataGenerationTaskTypeOfValue (s : String) :
    Option DataGenerationTaskType :=
  [DataGenerationTaskType.NLI, .CONVERSATION, .NLU_QUESTION_ANSWERING,
    .SUMMARIZATION].find? (fun t => t.value == s)

/-- `MetaEnum.contains` for `DataGenerationTaskType`
(the `in` operator): attempts enum construction from the item, returns
`false` when that raises `ValueError` and `true` otherwise.  Total by
construction. -/
def metaEnumContains (s : String) : Bool :=
  (dataGenerationTaskTypeOfValue s).isSome

/-- Spec-side schema of the join result: the union (concatenation) of both
schemas, minus the right-side duplicate of the key when the two join
column names are equal. -/
def specJoinSchema (L : DataFrame) (cl : String) (R : DataFrame)
    (cr : String) : List String :=
  if cl = cr then L.cols ++ R.cols.erase cr else L.cols ++ R.cols

/-- Spec-side row predicate of the join result: `row` is the combination
of a left row and a right row whose key cells match, the right copy of the
key cell removed when the two join column names are equal. -/
def specMatchedRow (L : DataFrame) (cl : String) (R : DataFrame)
    (cr : String) (row : List Value) : Prop :=
  ∃ lr ∈ L.rows, ∃ rr ∈ R.rows,
    valueEq (rowVal L cl lr) (rowVal R cr rr) = true ∧
    row = if cl = cr then lr ++ rr.eraseIdx (R.cols.indexOf cr)
          else lr ++ rr

/-- Scenario A, left dataset: two rows keyed by `id`. -/
def exampleLeft : DataFrame :=
  ⟨["id", "a"], [[.int 1, .str "x"], [.int 2, .str "y"]]⟩

/-- Scenario A, right dataset: two rows keyed by `id`. -/
def exampleRight : DataFrame :=
  ⟨["id", "b"], [[.int 1, .str "p"], [.int 3, .str "q"]]⟩

/-- Scenario A, expected join output: the single matched row. -/
def exampleJoined : DataFrame :=
  ⟨["id", "a", "b"], [[.int 1, .str "x", .str "p"]]⟩

example : join_data exampleLeft "id" exampleRight "id" = .ok exampleJoined :=
  rfl

theorem eraseIdx_length_add {α : Type} (xs ys : List α) (i : Nat) :
    (xs ++ ys).eraseIdx (xs.length + i) = xs ++ ys.eraseIdx i := by
  induction xs with
  | nil => simp
  | cons a xs ih =>
    simp only [List.cons_append, List.length_cons]
    rw [Nat.add_right_comm]
    simp [List.eraseIdx_cons_succ, ih]

theorem mem_innerJoinRows (L : DataFrame) (cl : String) (R : DataFrame)
    (cr : String) (row : List Value) :
    row ∈ innerJoinRows L cl R cr ↔
      ∃ lr ∈ L.rows, ∃ rr ∈ R.rows,
        valueEq (rowVal L cl lr) (rowVal R cr rr) = true ∧ row = lr ++ rr := by
  simp only [innerJoinRows, List.mem_flatMap, List.mem_map, List.mem_filter]
  constructor
  · rintro ⟨lr, hlr, rr, ⟨hrr, hp⟩, hEq⟩
    exact ⟨lr, hlr, rr, hrr, hp, hEq.symm⟩
  · rintro ⟨lr, hlr, rr, hrr, hp, hEq⟩
    exact ⟨lr, hlr, rr, ⟨hrr, hp⟩, hEq.symm⟩

theorem innerJoinRows_eq_nil_iff (L : DataFrame) (cl : String)
    (R : DataFrame) (cr : String) :
    innerJoinRows L cl R cr = [] ↔
      ∀ lr ∈ L.rows, ∀ rr ∈ R.rows,
        valueEq (rowVal L cl lr) (rowVal R cr rr) = false := by
  simp [innerJoinRows, List.flatMap_eq_nil_iff, List.map_eq_nil_iff,
    List.filter_eq_nil_iff]

theorem join_data_ok_iff (L : DataFrame) (cl : String) (R : DataFrame)
    (cr : String) (d : DataFrame) :
    join_data L cl R cr = .ok d ↔
      cl ∈ L.cols ∧ cr ∈ R.cols ∧
      d = (if cl = cr then
            dropColAt (sparkInnerJoin L cl R cr)
              (L.cols.length + R.cols.indexOf cr)
          else sparkInnerJoin L cl R cr) ∧
      d.rows ≠ [] := by
  by_cases h1 : cl ∈ L.cols
  · by_cases h2 : cr ∈ R.cols
    · simp only [join_data, validate_join_column_in_input_data, if_pos h1,
        if_pos h2]
      by_cases h3 :
          (if cl = cr then
            dropColAt (sparkInnerJoin L cl R cr)
              (L.cols.length + R.cols.indexOf cr)
          else sparkInnerJoin L cl R cr).rows.length = 0
      · simp only [if_pos h3]
        constructor
        · intro h; cases h
        · rintro ⟨-, -, hd, hne⟩
          exact absurd (List.length_eq_zero.mp (hd ▸ h3)) hne
      · simp only [if_neg h3]
        constructor
        · intro h
          cases h
          refine ⟨h1, h2, rfl, fun hnil => h3 ?_⟩
          simp [hnil]
        · rintro ⟨-, -, hd, -⟩
          rw [hd]
    · simp only [join_data, validate_join_column_in_input_data, if_pos h1,
        if_neg h2]
      constructor
      · intro h; cases h
      · rintro ⟨-, h, -⟩; exact absurd h h2
  · simp only [join_data, validate_join_column_in_input_data, if_neg h1]
    constructor
    · intro h; cases h
    · rintro ⟨h, -⟩; exact absurd h h1

/-- C2: when the left join column is absent from the left dataset,
`join_data` fails with `InvalidInputError`, the message names the missing
column and `left_input_data`, and the result is the same whatever right
dataset and right column name are supplied, so the right schema is never
examined and no join is attempted. -/
theorem join_data_missing_left_column (L R R2 : DataFrame)
    (cl cr cr2 : String) (h : cl ∉ L.cols) :
    join_data L cl R cr =
      .error (.invalidInput (joinColMissingMsg cl "left_input_data")) ∧
    join_data L cl R2 cr2 = join_data L cl R cr ∧
    (∃ a b, joinColMissingMsg cl "left_input_data" =
      a ++ "left_input_data" ++ b) ∧
    (∃ a b, joinColMissingMsg cl "left_input_data" = a ++ cl ++ b) := by
  refine ⟨?_, ?_, ?_, ?_⟩
  · simp [join_data, validate_join_column_in_input_data, if_neg h]
  · simp [join_data, validate_join_column_in_input_data, if_neg h]
  · exact ⟨"The join column \x27" ++ cl ++ "\x27 is not present in ", ".",
      by simp [joinColMissingMsg, String.append_assoc]⟩
  · exact ⟨"The join column \x27",
      "\x27 is not present in " ++ "left_input_data" ++ ".",
      by simp [joinColMissingMsg, String.append_assoc]⟩

/-- Witness for C2: a concrete left dataset without the requested column
fails with the exact left-side message, for two different right datasets. -/
theorem join_data_missing_left_column_witness :
    ("id" ∉ (DataFrame.mk ["uid"] []).cols) ∧
    join_data ⟨["uid"], []⟩ "id" exampleRight "id" =
      .error (.invalidInput (joinColMissingMsg "id" "left_input_data")) ∧
    join_data ⟨["uid"], []⟩ "id" exampleLeft "b" =
      join_data ⟨["uid"], []⟩ "id" exampleRight "id" := by
  have h : "id" ∉ (DataFrame.mk ["uid"] []).cols := by decide
  obtain ⟨h1, h2, -, -⟩ :=
    join_data_missing_left_column ⟨["uid"], []⟩ exampleRight exampleLeft
      "id" "id" "b" h
  exact ⟨h, h1, h2⟩

/-- C3: when the left join column is present but the right join column is
absent from the right dataset, `join_data` fails with `InvalidInputError`
whose message names `right_input_data`, and the result is the same
whatever rows the two datasets hold, so no join is attempted. -/
theorem join_data_missing_right_column (L R : DataFrame) (cl cr : String)
    (h1 : cl ∈ L.cols) (h2 : cr ∉ R.cols) :
    join_data L cl R cr =
      .error (.invalidInput (joinColMissingMsg cr "right_input_data")) ∧
    (∃ a b, joinColMissingMsg cr "right_input_data" =
      a ++ "right_input_data" ++ b) ∧
    (∀ lrows rrows, join_data ⟨L.cols, lrows⟩ cl ⟨R.cols, rrows⟩ cr =
      .error (.invalidInput (joinColMissingMsg cr "right_input_data"))) := by
  refine ⟨?_, ?_, ?_⟩
  · simp [join_data, validate_join_column_in_input_data, if_pos h1, if_neg h2]
  · exact ⟨"The join column \x27" ++ cr ++ "\x27 is not present in ", ".",
      by simp [joinColMissingMsg, String.append_assoc]⟩
  · intro lrows rrows
    simp [join_data, validate_join_column_in_input_data, if_pos h1, if_neg h2]

/-- Witness for C3: a concrete right dataset without the requested column
fails with the exact right-side message. -/
theorem join_data_missing_right_column_witness :
    ("id" ∈ exampleLeft.cols) ∧ ("rid" ∉ exampleRight.cols) ∧
    join_data exampleLeft "id" exampleRight "rid" =
      .error (.invalidInput (joinColMissingMsg "rid" "right_input_data")) := by
  have h1 : "id" ∈ exampleLeft.cols := by decide
  have h2 : "rid" ∉ exampleRight.cols := by decide
  exact ⟨h1, h2,
    (join_data_missing_right_column exampleLeft exampleRight "id" "rid"
      h1 h2).1⟩

/-- C8: `join_data` is deterministic; two successful invocations on the
same quadruple produce equal dataframes, hence row-identical outputs up to
row order. -/
theorem join_data_deterministic (L R : DataFrame) (cl cr : String)
    (d1 d2 : DataFrame) (h1 : join_data L cl R cr = .ok d1)
    (h2 : join_data L cl R cr = .ok d2) :
    d1 = d2 ∧ d1.rows.Perm d2.rows := by
  rw [h1] at h2
  cases h2
  exact ⟨rfl, List.Perm.refl _⟩

/-- Witness for C8: two invocations on Scenario A give the same output. -/
theorem join_data_deterministic_witness :
    exampleJoined = exampleJoined ∧ exampleJoined.rows.Perm exampleJoined.rows :=
  join_data_deterministic exampleLeft exampleRight "id" "id"
    exampleJoined exampleJoined rfl rfl

/-- C1: a successful `join_data` is the inner equi-join of the spec: the
output schema is the union of both schemas minus the right-side duplicate
key when the names coincide, and the output rows are exactly the
combinations of a left row and a right row whose key cells are equal;
in particular Scenario A yields the single row (1, x, p). -/
theorem join_data_inner_equi_join :
    (∀ (L : DataFrame) (cl : String) (R : DataFrame) (cr : String)
        (d : DataFrame),
      (∀ r ∈ L.rows, r.length = L.cols.length) →
      join_data L cl R cr = .ok d →
      d.cols = specJoinSchema L cl R cr ∧
      (∀ row, row ∈ d.rows ↔ specMatchedRow L cl R cr row)) ∧
    join_data exampleLeft "id" exampleRight "id" = .ok exampleJoined := by
  constructor
  · intro L cl R cr d hwf h
    obtain ⟨h1, h2, hd, -⟩ := (join_data_ok_iff L cl R cr d).mp h
    by_cases hc : cl = cr
    · subst hc
      rw [if_pos rfl] at hd
      subst hd
      constructor
      · show (L.cols ++ R.cols).eraseIdx (L.cols.length + R.cols.indexOf cl) =
          specJoinSchema L cl R cl
        rw [eraseIdx_length_add, List.eraseIdx_indexOf_eq_erase]
        simp [specJoinSchema]
      · intro row
        show row ∈ (innerJoinRows L cl R cl).map
            (fun r => r.eraseIdx (L.cols.length + R.cols.indexOf cl)) ↔ _
        rw [List.mem_map]
        simp only [specMatchedRow, eq_self_iff_true, if_true]
        constructor
        · rintro ⟨r0, hr0, hEq⟩
          obtain ⟨lr, hlr, rr, hrr, hp, rfl⟩ :=
            (mem_innerJoinRows L cl R cl r0).mp hr0
          refine ⟨lr, hlr, rr, hrr, hp, ?_⟩
          rw [← hEq, ← hwf lr hlr, eraseIdx_length_add]
        · rintro ⟨lr, hlr, rr, hrr, hp, hrow⟩
          refine ⟨lr ++ rr,
            (mem_innerJoinRows L cl R cl (lr ++ rr)).mpr
              ⟨lr, hlr, rr, hrr, hp, rfl⟩, ?_⟩
          rw [← hwf lr hlr, eraseIdx_length_add, hrow]
    · rw [if_neg hc] at hd
      subst hd
      constructor
      · show L.cols ++ R.cols = specJoinSchema L cl R cr
        simp [specJoinSchema, if_neg hc]
      · intro row
        show row ∈ innerJoinRows L cl R cr ↔ _
        rw [mem_innerJoinRows]
        simp only [specMatchedRow, if_neg hc]
  · rfl

/-- Witness for C1: the general law instantiated on Scenario A, including
membership of the single expected output row. -/
theorem join_data_inner_equi_join_witness :
    exampleJoined.cols = specJoinSchema exampleLeft "id" exampleRight "id" ∧
    ([Value.int 1, Value.str "x", Value.str "p"] ∈ exampleJoined.rows ↔
      specMatchedRow exampleLeft "id" exampleRight "id"
        [Value.int 1, Value.str "x", Value.str "p"]) :=
  ⟨(join_data_inner_equi_join.1 exampleLeft "id" exampleRight "id"
      exampleJoined (by decide) rfl).1,
   (join_data_inner_equi_join.1 exampleLeft "id" exampleRight "id"
      exampleJoined (by decide) rfl).2 _⟩

/-- C4: on a successful join of datasets with duplicate-free schemas, when
the two join column names are equal the output schema holds that name
exactly once; when they differ, both names are present in the output
schema. -/
theorem join_data_key_column_dedup (L R : DataFrame) (cl cr : String)
    (d : DataFrame) (hL : L.cols.Nodup) (hR : R.cols.Nodup)
    (h : join_data L cl R cr = .ok d) :
    (cl = cr → d.cols.count cl = 1) ∧
    (cl ≠ cr → cl ∈ d.cols ∧ cr ∈ d.cols) := by
  obtain ⟨h1, h2, hd, -⟩ := (join_data_ok_iff L cl R cr d).mp h
  constructor
  · intro hc
    subst hc
    rw [if_pos rfl] at hd
    subst hd
    show ((L.cols ++ R.cols).eraseIdx
      (L.cols.length + R.cols.indexOf cl)).count cl = 1
    rw [eraseIdx_length_add, List.eraseIdx_indexOf_eq_erase,
      List.count_append, List.count_eq_one_of_mem hL h1,
      List.count_erase_self, List.count_eq_one_of_mem hR h2]
  · intro hc
    rw [if_neg hc] at hd
    subst hd
    exact ⟨List.mem_append_left _ h1, List.mem_append_right _ h2⟩

/-- Witness for C4: the dedup law instantiated on Scenario A, whose join
key is named `id` on both sides. -/
theorem join_data_key_column_dedup_witness :
    ("id" = "id" → exampleJoined.cols.count "id" = 1) ∧
    ("id" ≠ "id" → "id" ∈ exampleJoined.cols ∧ "id" ∈ exampleJoined.cols) :=
  join_data_key_column_dedup exampleLeft exampleRight "id" "id"
    exampleJoined (by decide) (by decide) rfl

/-- C5: with both join columns present, `join_data` fails with
`InvalidInputError` exactly when no left key cell equals any right key
cell (whatever the row counts), and every dataframe it returns has at
least one row. -/
theorem join_data_empty_result (L R : DataFrame) (cl cr : String)
    (h1 : cl ∈ L.cols) (h2 : cr ∈ R.cols) :
    ((∃ m, join_data L cl R cr = .error (.invalidInput m)) ↔
      ∀ lr ∈ L.rows, ∀ rr ∈ R.rows,
        valueEq (rowVal L cl lr) (rowVal R cr rr) = false) ∧
    (∀ d, join_data L cl R cr = .ok d → d.rows ≠ []) := by
  have hjd : join_data L cl R cr =
      (if (if cl = cr then
            dropColAt (sparkInnerJoin L cl R cr)
              (L.cols.length + R.cols.indexOf cr)
          else sparkInnerJoin L cl R cr).rows.length = 0 then
        .error (.invalidInput emptyDataMsg)
      else .ok (if cl = cr then
            dropColAt (sparkInnerJoin L cl R cr)
              (L.cols.length + R.cols.indexOf cr)
          else sparkInnerJoin L cl R cr)) := by
    simp only [join_data, validate_join_column_in_input_data, if_pos h1,
      if_pos h2]
  have hlen : (if cl = cr then
        dropColAt (sparkInnerJoin L cl R cr)
          (L.cols.length + R.cols.indexOf cr)
      else sparkInnerJoin L cl R cr).rows.length =
      (innerJoinRows L cl R cr).length := by
    by_cases hc : cl = cr <;> simp [hc, dropColAt, sparkInnerJoin]
  constructor
  · constructor
    · rintro ⟨m, hm⟩
      rw [hjd] at hm
      by_cases hz : (if cl = cr then
            dropColAt (sparkInnerJoin L cl R cr)
              (L.cols.length + R.cols.indexOf cr)
          else sparkInnerJoin L cl R cr).rows.length = 0
      · refine (innerJoinRows_eq_nil_iff L cl R cr).mp ?_
        rw [hlen] at hz
        exact List.length_eq_zero.mp hz
      · rw [if_neg hz] at hm
        cases hm
    · intro hall
      have hnil : innerJoinRows L cl R cr = [] :=
        (innerJoinRows_eq_nil_iff L cl R cr).mpr hall
      refine ⟨emptyDataMsg, ?_⟩
      rw [hjd, if_pos]
      rw [hlen, hnil]
      rfl
  · intro d hd
    exact ((join_data_ok_iff L cl R cr d).mp hd).2.2.2

/-- Witness for C5: Scenario B, key columns `uid` and `rid` both present
but with no matching key values, fails with `InvalidInputError`. -/
theorem join_data_empty_result_witness :
    ("uid" ∈ (DataFrame.mk ["uid", "a"] [[.int 1, .str "x"]]).cols) ∧
    (∃ m, join_data ⟨["uid", "a"], [[.int 1, .str "x"]]⟩ "uid"
        ⟨["rid", "b"], [[.int 9, .str "p"]]⟩ "rid" =
      .error (.invalidInput m)) :=
  ⟨by decide,
   (join_data_empty_result ⟨["uid", "a"], [[.int 1, .str "x"]]⟩
      ⟨["rid", "b"], [[.int 9, .str "p"]]⟩ "uid" "rid"
      (by decide) (by decide)).1.mpr (by decide)⟩

/-- C6 (code bug): on Scenario A the join succeeds and its output schema
has no duplicate name, yet `run` raises `AttributeError` instead of
passing the duplicate check and writing the output, because
`joined_data_df.columns` is a plain Python list with no `duplicated`
attribute; nothing is written. -/
theorem run_duplicate_check_attribute_error :
    join_data exampleLeft "id" exampleRight "id" = .ok exampleJoined ∧
    exampleJoined.cols.Nodup ∧
    run exampleLeft "id" exampleRight "id" =
      (.error (.attributeError
        "\x27list\x27 object has no attribute \x27duplicated\x27"), []) :=
  ⟨rfl, by decide, rfl⟩

/-- C7: `run` is all-or-nothing: every invocation either fails with some
error and writes nothing, or succeeds and writes exactly one dataset; and
every error of `join_data` propagates unchanged with nothing written. -/
theorem run_all_or_nothing (L : DataFrame) (cl : String) (R : DataFrame)
    (cr : String) :
    ((∃ e, run L cl R cr = (.error e, [])) ∨
      (∃ d, run L cl R cr = (.ok (), [d]))) ∧
    (∀ e, join_data L cl R cr = .error e →
      run L cl R cr = (.error e, [])) := by
  constructor
  · cases hj : join_data L cl R cr with
    | error e => exact Or.inl ⟨e, by simp [run, hj]⟩
    | ok joined =>
      exact Or.inl ⟨.attributeError
        "\x27list\x27 object has no attribute \x27duplicated\x27",
        by simp [run, hj, columns_duplicated]⟩
  · intro e he
    simp [run, he]

/-- Witness for C7: a missing left column propagates unchanged through
`run` and the write log stays empty. -/
theorem run_all_or_nothing_witness :
    run (⟨["uid"], []⟩ : DataFrame) "id" exampleRight "id" =
      (.error (.invalidInput (joinColMissingMsg "id" "left_input_data")),
        []) :=
  (run_all_or_nothing ⟨["uid"], []⟩ "id" exampleRight "id").2 _ rfl

/-- C9: `join_data` never mutates its inputs: in the state-passing reading
where the two loaded dataframes are the state and every dataframe
operation threads it, the final state equals the initial state, and the
returned value is exactly that of `join_data` on the initial dataframes. -/
theorem join_data_state_frame (cl cr : String) (s : SparkEnv) :
    (join_data_state cl cr s).2 = s ∧
    (join_data_state cl cr s).1 =
      join_data s.left_input_data_df cl s.right_input_data_df cr := by
  have hred : join_data_state cl cr s =
      (join_data s.left_input_data_df cl s.right_input_data_df cr, s) := by
    by_cases h1 : cl ∈ s.left_input_data_df.cols
    · by_cases h2 : cr ∈ s.right_input_data_df.cols
      · by_cases hc : cl = cr
        · subst hc
          simp only [join_data_state, join_data, validateSt, joinSt,
            dropSt, countSt, validate_join_column_in_input_data,
            if_pos h1, if_pos h2, if_pos rfl]
          split <;> (simp_all; (try (split <;> simp_all)))
        · simp only [join_data_state, join_data, validateSt, joinSt,
            dropSt, countSt, validate_join_column_in_input_data,
            if_pos h1, if_pos h2, if_neg hc]
          split <;> rfl
      · simp [join_data_state, join_data, validateSt,
          validate_join_column_in_input_data, if_pos h1, if_neg h2]
    · simp [join_data_state, join_data, validateSt,
        validate_join_column_in_input_data, if_neg h1]
  rw [hred]
  exact ⟨rfl, rfl⟩

/-- C10: the task-type membership check is a total boolean containment
predicate: it holds exactly on the four variant values, and it holds on
the value of every enum member. -/
theorem dataGenerationTaskType_contains_iff :
    (∀ s : String, metaEnumContains s = true ↔
      (s = "NLI" ∨ s = "CONVERSATION" ∨ s = "NLU_QA" ∨
        s = "SUMMARIZATION")) ∧
    (∀ t : DataGenerationTaskType, metaEnumContains t.value = true) := by
  constructor
  · intro s
    by_cases hA : s = "NLI"
    · subst hA; decide
    · by_cases hB : s = "CONVERSATION"
      · subst hB; decide
      · by_cases hC : s = "NLU_QA"
        · subst hC; decide
        · by_cases hD : s = "SUMMARIZATION"
          · subst hD
            decide
          · simp only [metaEnumContains, dataGenerationTaskTypeOfValue,
              List.find?, DataGenerationTaskType.value]
            rw [beq_eq_false_iff_ne.mpr (fun hEq => hA hEq.symm),
              beq_eq_false_iff_ne.mpr (fun hEq => hB hEq.symm),
              beq_eq_false_iff_ne.mpr (fun hEq => hC hEq.symm),
              beq_eq_false_iff_ne.mpr (fun hEq => hD hEq.symm)]
            simp [hA, hB, hC, hD]
  · intro t
    cases t <;> rfl

/-- Witness for C10: the containment predicate holds on the value
`NLU_QA` of the question-answering member and fails on a lower-case
variant spelling. -/
theorem dataGenerationTaskType_contains_witness :
    metaEnumContains "NLU_QA" = true ∧ metaEnumContains "nli" = false :=
  ⟨(dataGenerationTaskType_contains_iff.1 "NLU_QA").mpr
      (Or.inr (Or.inr (Or.inl rfl))),
    by decide⟩
